import Mathlib

/-!
Shallow embedding of the TRI (Item Response Theory) estimation engine in
`src/src/logic/tri_engine.py`, together with theorems checking the
natural-language specification against it.

Real-valued floating-point computations are modelled over `ℝ`.  The external
scipy optimizer `minimize` (L-BFGS-B) is not part of the repository; it is
abstracted as a function parameter receiving the objective, the starting
point and the bounds, and returning a result record.  Python `print` calls
are modelled as a list of output lines returned alongside the value.
-/

namespace TriEngine

/-- Média da escala de proficiência (theta). -/
def THETA_MEDIA : ℝ := 0

/-- Desvio padrão da escala de proficiência (theta). -/
def THETA_DESVIO_PADRAO : ℝ := 1

/-- Média da nota final na escala ENEM. -/
def NOTA_ENEM_MEDIA : ℝ := 500

/-- Desvio padrão da nota final na escala ENEM. -/
def NOTA_ENEM_DESVIO_PADRAO : ℝ := 100

/-- An item parameter triple `(a, b, c)`: discrimination, difficulty, guessing. -/
abbrev Item : Type := ℝ × ℝ × ℝ

/-- `probabilidade_acerto theta a b c` from the source: 3-parameter logistic
model, `c + (1 - c) * (1 / (1 + exp (-1.7 * a * (theta - b))))`, where `1.7`
is the source's `fator_escala` and the exponent is `expoente`. -/
noncomputable def probabilidade_acerto (theta a b c : ℝ) : ℝ :=
  c + (1 - c) * (1 / (1 + Real.exp (-1.7 * a * (theta - b))))

/-- The numerical floor added inside each logarithm in `log_verossimilhanca`. -/
noncomputable def epsilon : ℝ := 1e-9

/-- The argument handed to `np.log` for one item of the loop body of
`log_verossimilhanca`: `p + epsilon` when the response equals 1 ("acerto"),
`1 - p + epsilon` otherwise ("erro"). -/
noncomputable def logArg (theta : ℝ) (resposta : ℤ) (item : Item) : ℝ :=
  if resposta = 1 then
    probabilidade_acerto theta item.1 item.2.1 item.2.2 + epsilon
  else
    1 - probabilidade_acerto theta item.1 item.2.1 item.2.2 + epsilon

/-- The `i`-th summand accumulated by the loop of `log_verossimilhanca`:
the logarithm of `logArg` at index `i`.  The source indexes
`parametros_itens[i]`; the claims only concern indices that are in range for
both lists, so out-of-range access is modelled with a default triple. -/
noncomputable def logTermo (theta : ℝ) (respostas : List ℤ)
    (parametros_itens : List Item) (i : ℕ) : ℝ :=
  Real.log (logArg theta (respostas.getD i 0) (parametros_itens.getD i (0, 0, 0)))

/-- `log_verossimilhanca theta respostas parametros_itens` from the source:
the negated sum, over the indices of `respostas`, of `logTermo`. -/
noncomputable def log_verossimilhanca (theta : ℝ) (respostas : List ℤ)
    (parametros_itens : List Item) : ℝ :=
  -List.sum ((List.range respostas.length).map (logTermo theta respostas parametros_itens))

/-- Result record of the external bounded optimizer (scipy's
`OptimizeResult`, restricted to the fields the source reads): `success`,
the minimizing point `x` and the diagnostic `message`. -/
structure OptResult where
  success : Bool
  x : ℝ
  message : String

/-- An abstract bounded one-dimensional minimizer: objective, starting
point, bounds pair. -/
def Minimizer : Type := (ℝ → ℝ) → ℝ → ℝ × ℝ → OptResult

/-- The line printed by the degenerate-pattern branch of
`estimar_proficiencia`. -/
def degenerate_message : String :=
  "Padrão de resposta extremo (todos acertos ou todos erros). Não é possível estimar um theta único."

/-- The line printed by the non-convergence branch of
`estimar_proficiencia`, with the solver diagnostic interpolated. -/
def nonconvergence_message (msg : String) : String :=
  "Otimização falhou em convergir: " ++ msg

/-- `estimar_proficiencia` from the source, parameterised by the external
optimizer.  Returns the optional theta together with the list of printed
lines.  The degenerate-pattern check (`all(r == 1)` or `all(r == 0)`) comes
first; otherwise the optimizer is run on the negative log-likelihood from
`theta_inicial = 0` with bounds `(-4, 4)`, and its result is unpacked. -/
noncomputable def estimar_proficiencia (minimize : Minimizer)
    (respostas : List ℤ) (parametros_itens : List Item) :
    Option ℝ × List String :=
  if (∀ r ∈ respostas, r = 1) ∨ (∀ r ∈ respostas, r = 0) then
    (none, [degenerate_message])
  else
    let theta_inicial : ℝ := 0
    let resultado := minimize
      (fun theta => log_verossimilhanca theta respostas parametros_itens)
      theta_inicial (-4, 4)
    if resultado.success then
      (some resultado.x, [])
    else
      (none, [nonconvergence_message resultado.message])

/-- `calcular_nota_tri` from the source: `None` propagates, otherwise the
affine rescaling onto the ENEM scale. -/
noncomputable def calcular_nota_tri : Option ℝ → Option ℝ
  | none => none
  | some theta =>
      some (NOTA_ENEM_MEDIA + (theta - THETA_MEDIA) *
        (NOTA_ENEM_DESVIO_PADRAO / THETA_DESVIO_PADRAO))

/-- A stub optimizer that always succeeds at its starting point, used to
instantiate theorems that hold for every optimizer. -/
def trivialMinimize : Minimizer := fun _ x0 _ => ⟨true, x0, ""⟩

/-- A stub optimizer that always reports failure, used to instantiate
theorems about the non-convergence branch. -/
def failMinimize : Minimizer := fun _ _ _ => ⟨false, 0, "ABNORMAL"⟩

end TriEngine

namespace TriEngine

/-- Helper: for `0 ≤ c < 1` the 3PL probability lies strictly between `c`
and `1`, for every `theta`. -/
lemma prob_range (a b c : ℝ) (hc0 : 0 ≤ c) (hc1 : c < 1) (theta : ℝ) :
    c < probabilidade_acerto theta a b c ∧ probabilidade_acerto theta a b c < 1 := by
  have he := Real.exp_pos (-1.7 * a * (theta - b))
  have hden : (0 : ℝ) < 1 + Real.exp (-1.7 * a * (theta - b)) := by linarith
  have ht0 : 0 < 1 / (1 + Real.exp (-1.7 * a * (theta - b))) := by positivity
  have ht1 : 1 / (1 + Real.exp (-1.7 * a * (theta - b))) < 1 := by
    rw [div_lt_one hden]; linarith
  have h1c : (0 : ℝ) < 1 - c := by linarith
  unfold probabilidade_acerto
  constructor
  · nlinarith [mul_pos h1c ht0]
  · nlinarith [mul_pos h1c (show (0 : ℝ) < 1 - 1 / (1 + Real.exp (-1.7 * a * (theta - b))) by linarith)]

/-- C3: for every item with `a > 0` and `0 ≤ c < 1`, `probabilidade_acerto`
is strictly increasing in `theta` and satisfies `c ≤ p < 1`. -/
theorem probabilidade_acerto_strictMono_range (a b c : ℝ)
    (ha : 0 < a) (hc0 : 0 ≤ c) (hc1 : c < 1) :
    StrictMono (fun theta => probabilidade_acerto theta a b c) ∧
    ∀ theta, c ≤ probabilidade_acerto theta a b c ∧
      probabilidade_acerto theta a b c < 1 := by
  constructor
  · intro t1 t2 h
    simp only [probabilidade_acerto]
    have hexp : Real.exp (-1.7 * a * (t2 - b)) < Real.exp (-1.7 * a * (t1 - b)) :=
      Real.exp_lt_exp.mpr (by nlinarith [mul_pos ha (sub_pos.mpr h)])
    have h2 : (0 : ℝ) < 1 + Real.exp (-1.7 * a * (t2 - b)) := by positivity
    have hd : 1 / (1 + Real.exp (-1.7 * a * (t1 - b))) <
        1 / (1 + Real.exp (-1.7 * a * (t2 - b))) :=
      one_div_lt_one_div_of_lt h2 (by linarith)
    have h1c : (0 : ℝ) < 1 - c := by linarith
    nlinarith [mul_pos h1c (sub_pos.mpr hd)]
  · intro theta
    obtain ⟨hlo, hhi⟩ := prob_range a b c hc0 hc1 theta
    exact ⟨le_of_lt hlo, hhi⟩

/-- Witness for C3 at the concrete item `a = 1, b = 0, c = 0` and
`theta = 0`. -/
theorem probabilidade_acerto_strictMono_range_witness :
    (0 : ℝ) < 1 ∧ probabilidade_acerto 0 1 0 0 < 1 :=
  ⟨by norm_num,
    ((probabilidade_acerto_strictMono_range 1 0 0 (by norm_num) (by norm_num)
      (by norm_num)).2 0).2⟩

/-- C4: for every valid item, the probability at `theta = b` is exactly the
midpoint `c + (1 - c) / 2` (exactly, in the real-number model). -/
theorem probabilidade_acerto_at_b (a b c : ℝ)
    (ha : 0 < a) (hc0 : 0 ≤ c) (hc1 : c < 1) :
    probabilidade_acerto b a b c = c + (1 - c) / 2 := by
  unfold probabilidade_acerto
  rw [sub_self, mul_zero, Real.exp_zero]
  ring

/-- Witness for C4 at the concrete item `a = 1, b = 0, c = 0`. -/
theorem probabilidade_acerto_at_b_witness :
    probabilidade_acerto 0 1 0 0 = 0 + (1 - 0) / 2 :=
  probabilidade_acerto_at_b 1 0 0 (by norm_num) (by norm_num) (by norm_num)

/-- C2: `calcular_nota_tri` propagates failure unchanged and maps every
finite theta to exactly `500 + (theta - 0) * (100 / 1)`; in particular
`0 ↦ 500`, `1 ↦ 600`, `-1 ↦ 400`, and it has no failure mode of its own. -/
theorem calcular_nota_tri_spec :
    calcular_nota_tri none = none ∧
    (∀ theta : ℝ, calcular_nota_tri (some theta) =
      some (500 + (theta - 0) * (100 / 1))) ∧
    calcular_nota_tri (some 0) = some 500 ∧
    calcular_nota_tri (some 1) = some 600 ∧
    calcular_nota_tri (some (-1)) = some 400 := by
  refine ⟨rfl, fun theta => ?_, ?_, ?_, ?_⟩ <;>
    simp [calcular_nota_tri, NOTA_ENEM_MEDIA, THETA_MEDIA,
      NOTA_ENEM_DESVIO_PADRAO, THETA_DESVIO_PADRAO] <;> norm_num

/-- C1: on an all-1 or all-0 response vector of length at least 1 with a
valid item list of equal length, `estimar_proficiencia` returns the absent
value through the degenerate-pattern branch, for every optimizer (so the
optimizer is never consulted) and never a numeric theta. -/
theorem estimar_proficiencia_degenerate (minimize : Minimizer)
    (respostas : List ℤ) (parametros_itens : List Item)
    (hne : 1 ≤ respostas.length)
    (hlen : parametros_itens.length = respostas.length)
    (hvalid : ∀ item ∈ parametros_itens,
      0 < item.1 ∧ 0 ≤ item.2.2 ∧ item.2.2 < 1)
    (hdeg : (∀ r ∈ respostas, r = 1) ∨ (∀ r ∈ respostas, r = 0)) :
    estimar_proficiencia minimize respostas parametros_itens =
      (none, [degenerate_message]) := by
  unfold estimar_proficiencia
  rw [if_pos hdeg]

/-- Witness for C1: the all-1 vector `[1, 1, 1]` with three valid items. -/
theorem estimar_proficiencia_degenerate_witness :
    estimar_proficiencia trivialMinimize [1, 1, 1]
      [(1, 0, 1 / 5), (1, 0, 1 / 5), (1, 0, 1 / 5)] =
      (none, [degenerate_message]) :=
  estimar_proficiencia_degenerate trivialMinimize [1, 1, 1]
    [(1, 0, 1 / 5), (1, 0, 1 / 5), (1, 0, 1 / 5)]
    (by norm_num) (by norm_num)
    (by
      intro item hmem
      simp only [List.mem_cons, List.not_mem_nil, or_false] at hmem
      rcases hmem with h | h | h <;> subst h <;> norm_num)
    (Or.inl (by decide))

/-- C5: `estimar_proficiencia` is deterministic — two calls with identical
`(responses, items)` inputs (and the same deterministic optimizer) return
identical results; the embedding has no hidden randomness. -/
theorem estimar_proficiencia_deterministic (minimize : Minimizer)
    (respostas₁ respostas₂ : List ℤ) (itens₁ itens₂ : List Item)
    (hr : respostas₁ = respostas₂) (hi : itens₁ = itens₂) :
    estimar_proficiencia minimize respostas₁ itens₁ =
      estimar_proficiencia minimize respostas₂ itens₂ := by
  rw [hr, hi]

/-- Witness for C5 at a concrete input. -/
theorem estimar_proficiencia_deterministic_witness :
    estimar_proficiencia trivialMinimize [1, 0] [(1, 0, 0), (1, 1, 0)] =
      estimar_proficiencia trivialMinimize [1, 0] [(1, 0, 0), (1, 1, 0)] :=
  estimar_proficiencia_deterministic trivialMinimize [1, 0] [1, 0]
    [(1, 0, 0), (1, 1, 0)] [(1, 0, 0), (1, 1, 0)] rfl rfl

/-- Counterexample to C6: with an item whose discrimination is `a = -1 ≤ 0`
and a non-degenerate response vector, `estimar_proficiencia` does not fail
before optimization — it invokes the optimizer and returns its numeric
result (here `some 0`, with no error line printed). -/
theorem estimar_proficiencia_no_validation_counterexample :
    estimar_proficiencia trivialMinimize [1, 0] [(-1, 0, 0), (1, 0, 0)] =
      (some 0, []) := by
  unfold estimar_proficiencia
  rw [if_neg (by decide)]
  simp [trivialMinimize]

/-- C6 amended: `estimar_proficiencia` performs no input validation — for
every input with some invalid item (`a ≤ 0` or `c` outside `[0, 1)`) whose
response pattern is not degenerate, it still invokes the optimizer and its
result alone determines the outcome; no `InvalidItemParameter` error
exists in the code. -/
theorem estimar_proficiencia_no_validation (minimize : Minimizer)
    (respostas : List ℤ) (parametros_itens : List Item)
    (hinv : ∃ item ∈ parametros_itens,
      item.1 ≤ 0 ∨ item.2.2 < 0 ∨ 1 ≤ item.2.2)
    (hnd : ¬ ((∀ r ∈ respostas, r = 1) ∨ (∀ r ∈ respostas, r = 0))) :
    estimar_proficiencia minimize respostas parametros_itens =
      (if (minimize (fun theta =>
            log_verossimilhanca theta respostas parametros_itens) 0
            (-4, 4)).success then
        (some (minimize (fun theta =>
          log_verossimilhanca theta respostas parametros_itens) 0 (-4, 4)).x, [])
      else
        (none, [nonconvergence_message (minimize (fun theta =>
          log_verossimilhanca theta respostas parametros_itens) 0
          (-4, 4)).message])) := by
  unfold estimar_proficiencia
  rw [if_neg hnd]

/-- Witness for the amended C6 at a concrete invalid item. -/
theorem estimar_proficiencia_no_validation_witness :
    estimar_proficiencia failMinimize [1, 0] [(-1, 0, 0), (1, 0, 0)] =
      (if (failMinimize (fun theta =>
            log_verossimilhanca theta [1, 0] [(-1, 0, 0), (1, 0, 0)]) 0
            (-4, 4)).success then
        (some (failMinimize (fun theta =>
          log_verossimilhanca theta [1, 0] [(-1, 0, 0), (1, 0, 0)]) 0
          (-4, 4)).x, [])
      else
        (none, [nonconvergence_message (failMinimize (fun theta =>
          log_verossimilhanca theta [1, 0] [(-1, 0, 0), (1, 0, 0)]) 0
          (-4, 4)).message])) :=
  estimar_proficiencia_no_validation failMinimize [1, 0]
    [(-1, 0, 0), (1, 0, 0)]
    ⟨(-1, 0, 0), by simp, Or.inl (by norm_num)⟩ (by decide)

/-- C8: whenever the optimizer reports non-convergence (on a non-degenerate
pattern, so that the optimizer is reached), `estimar_proficiencia` returns
the absent value — no best-effort theta — and surfaces the solver
diagnostic in the printed non-convergence line. -/
theorem estimar_proficiencia_nonconvergence (minimize : Minimizer)
    (respostas : List ℤ) (parametros_itens : List Item)
    (hnd : ¬ ((∀ r ∈ respostas, r = 1) ∨ (∀ r ∈ respostas, r = 0)))
    (hfail : (minimize (fun theta =>
      log_verossimilhanca theta respostas parametros_itens) 0
      (-4, 4)).success = false) :
    estimar_proficiencia minimize respostas parametros_itens =
      (none, [nonconvergence_message (minimize (fun theta =>
        log_verossimilhanca theta respostas parametros_itens) 0
        (-4, 4)).message]) := by
  unfold estimar_proficiencia
  rw [if_neg hnd]
  simp [hfail]

/-- Witness for C8 with the always-failing optimizer stub. -/
theorem estimar_proficiencia_nonconvergence_witness :
    estimar_proficiencia failMinimize [1, 0] [(1, 0, 0), (1, 1, 0)] =
      (none, [nonconvergence_message "ABNORMAL"]) :=
  estimar_proficiencia_nonconvergence failMinimize [1, 0]
    [(1, 0, 0), (1, 1, 0)] (by decide) rfl

/-- C9: on the empty response vector the all-1 and all-0 checks are
vacuously true, so `estimar_proficiencia` returns the absent value through
the degenerate-pattern branch for every optimizer and every item list,
without reaching the optimizer. -/
theorem estimar_proficiencia_empty (minimize : Minimizer)
    (parametros_itens : List Item) :
    estimar_proficiencia minimize [] parametros_itens =
      (none, [degenerate_message]) := by
  unfold estimar_proficiencia
  rw [if_pos (Or.inl (by simp))]

/-- C7: for every theta and well-formed input (equal lengths, at least one
item, each item with `a > 0` and `0 ≤ c < 1`), every logarithm argument
occurring in `log_verossimilhanca` is strictly positive — the `1e-9` floor
and the `(c, 1)` probability range keep each argument above zero, so the
sum is a single well-defined real scalar. -/
theorem log_verossimilhanca_pos_args (theta : ℝ) (respostas : List ℤ)
    (parametros_itens : List Item)
    (hlen : respostas.length = parametros_itens.length)
    (hne : 0 < respostas.length)
    (hvalid : ∀ item ∈ parametros_itens,
      0 < item.1 ∧ 0 ≤ item.2.2 ∧ item.2.2 < 1) :
    ∀ i < respostas.length,
      0 < logArg theta (respostas.getD i 0)
        (parametros_itens.getD i (0, 0, 0)) := by
  intro i hi
  have hi' : i < parametros_itens.length := hlen ▸ hi
  have hgd : parametros_itens.getD i (0, 0, 0) = parametros_itens[i] := by
    rw [List.getD_eq_getElem?_getD, List.getElem?_eq_getElem hi']
    rfl
  obtain ⟨ha, hc0, hc1⟩ := hvalid _ (List.getElem_mem hi')
  obtain ⟨hlo, hhi⟩ := prob_range parametros_itens[i].1 parametros_itens[i].2.1
    parametros_itens[i].2.2 hc0 hc1 theta
  have heps : (0 : ℝ) < epsilon := by norm_num [epsilon]
  rw [hgd]
  unfold logArg
  split
  · linarith
  · linarith

/-- Witness for C7: the single-item input `respostas = [1]`,
`parametros_itens = [(1, 0, 0)]`, at `theta = 0` and index `0`. -/
theorem log_verossimilhanca_pos_args_witness :
    0 < logArg 0 (([1] : List ℤ).getD 0 0)
      (([(1, 0, 0)] : List Item).getD 0 (0, 0, 0)) :=
  log_verossimilhanca_pos_args 0 [1] [(1, 0, 0)] (by norm_num) (by norm_num)
    (by
      intro item hmem
      simp only [List.mem_cons, List.not_mem_nil, or_false] at hmem
      subst hmem; norm_num)
    0 (by norm_num)

/-- C10: in `log_verossimilhanca`, any response value different from 1
(for instance 2) takes the "erro" branch: its `logArg` is
`1 - p + epsilon`, and for a one-item input the whole negative
log-likelihood is `-log (1 - p + epsilon)`. -/
theorem log_verossimilhanca_not_one_is_erro (theta : ℝ) (r : ℤ) (item : Item)
    (hr : r ≠ 1) :
    logArg theta r item =
      1 - probabilidade_acerto theta item.1 item.2.1 item.2.2 + epsilon ∧
    log_verossimilhanca theta [r] [item] =
      -Real.log (1 - probabilidade_acerto theta item.1 item.2.1 item.2.2 +
        epsilon) := by
  constructor
  · unfold logArg
    rw [if_neg hr]
  · unfold log_verossimilhanca logTermo
    simp [List.range_succ, logArg, hr]

/-- Witness for C10 at the out-of-alphabet response value 2. -/
theorem log_verossimilhanca_not_one_is_erro_witness :
    logArg 0 2 ((1 : ℝ), (0 : ℝ), (0 : ℝ)) =
      1 - probabilidade_acerto 0 1 0 0 + epsilon ∧
    log_verossimilhanca 0 [2] [((1 : ℝ), (0 : ℝ), (0 : ℝ))] =
      -Real.log (1 - probabilidade_acerto 0 1 0 0 + epsilon) :=
  log_verossimilhanca_not_one_is_erro 0 2 (1, 0, 0) (by decide)

end TriEngine
